import Mathlib

/-!
Shallow embedding of src/src/renderer/allocator/gpu.rs from the
imgui-rs-vulkan-renderer repository: the GpuAllocator resource binder built on
a shared, mutex-guarded gpu_allocator pool.

The device and the sub-allocator pool are external collaborators; they are
modelled at their interface boundary as oracles (DeviceBehavior, AllocatorState)
whose success or failure on each call is part of the input, so every control
path of the Rust functions is reachable.  Each operation returns, besides its
result and the updated pool state, the ordered trace of external calls it
performed (device calls, allocator calls, lock acquisition and release).  Lock
release events are placed where Rust drops the MutexGuard: at the exit of the
function body, since the guard binding lives to the end of the enclosing scope.
-/

/-- Raw Vulkan buffer handle (vk::Buffer), modelled as an opaque id. -/
abbrev VkBuffer := Nat

/-- Raw Vulkan image handle (vk::Image), modelled as an opaque id. -/
abbrev VkImage := Nat

/-- Memory requirements reported by the device for a raw resource
(vk::MemoryRequirements). -/
structure MemoryRequirements where
  size : Nat
  alignment : Nat
  memoryTypeBits : Nat
deriving DecidableEq, Repr

/-- The gpu_allocator MemoryLocation classification. -/
inductive MemoryLocation where
  | Unknown
  | GpuOnly
  | CpuToGpu
  | GpuToCpu
deriving DecidableEq, Repr

/-- The gpu_allocator AllocationCreateDesc passed to Allocator::allocate. -/
structure AllocationCreateDesc where
  name : String
  requirements : MemoryRequirements
  location : MemoryLocation
  linear : Bool
deriving DecidableEq, Repr

/-- A gpu_allocator Allocation: backing memory object, offset, size, and the
optional host-mapped pointer (mapped_ptr). -/
structure Allocation where
  memory : Nat
  offset : Nat
  size : Nat
  mappedPtr : Option Nat
deriving DecidableEq, Repr

/-- The renderer error type as used by gpu.rs.  Allocator carries the message
built in GpuAllocator::get_allocator for a failed lock; Vulkan stands for an
ash vk::Result error converted by the question-mark operator; AllocationError
stands for a converted gpu_allocator::AllocationError.  UnmappedMemory is
modelled from the spec: the error taxonomy of section 7 names an UnmappedMemory
kind for writes against an unmapped Allocation; no such variant is produced
anywhere in gpu.rs. -/
inductive RendererError where
  | Allocator (msg : String)
  | Vulkan (msg : String)
  | AllocationError (msg : String)
  | UnmappedMemory
deriving DecidableEq, Repr

/-- Vulkan sharing mode. -/
inductive SharingMode where
  | EXCLUSIVE
  | CONCURRENT
deriving DecidableEq, Repr

/-- The vk::BufferCreateInfo built in create_buffer. -/
structure BufferCreateInfo where
  size : Nat
  usage : Nat
  sharing_mode : SharingMode
deriving DecidableEq, Repr

/-- Vulkan image type. -/
inductive ImageType where
  | TYPE_1D
  | TYPE_2D
  | TYPE_3D
deriving DecidableEq, Repr

/-- Vulkan image format (the variants relevant here). -/
inductive Format where
  | R8G8B8A8_UNORM
  | B8G8R8A8_UNORM
  | R8G8B8A8_SRGB
deriving DecidableEq, Repr

/-- Vulkan image tiling. -/
inductive ImageTiling where
  | OPTIMAL
  | LINEAR
deriving DecidableEq, Repr

/-- Vulkan image layout (the variants relevant here). -/
inductive ImageLayout where
  | UNDEFINED
  | PREINITIALIZED
  | GENERAL
deriving DecidableEq, Repr

/-- Vulkan sample count flags (the variants relevant here). -/
inductive SampleCount where
  | TYPE_1
  | TYPE_2
  | TYPE_4
deriving DecidableEq, Repr

/-- Vulkan 3D extent. -/
structure Extent3D where
  width : Nat
  height : Nat
  depth : Nat
deriving DecidableEq, Repr

/-- Bit value of vk::ImageUsageFlags::TRANSFER_DST. -/
def IMAGE_USAGE_TRANSFER_DST : Nat := 2

/-- Bit value of vk::ImageUsageFlags::SAMPLED. -/
def IMAGE_USAGE_SAMPLED : Nat := 4

/-- The vk::ImageCreateInfo built in create_image. -/
structure ImageCreateInfo where
  image_type : ImageType
  extent : Extent3D
  mip_levels : Nat
  array_layers : Nat
  format : Format
  tiling : ImageTiling
  initial_layout : ImageLayout
  usage : Nat
  sharing_mode : SharingMode
  samples : SampleCount
  flags : Nat
deriving DecidableEq, Repr

/-- One external call performed by a GpuAllocator operation, in program order.
lockAcquire and lockRelease mark the lifetime of the MutexGuard returned by
get_allocator; release happens where Rust drops the guard. -/
inductive Event where
  | devCreateBuffer (info : BufferCreateInfo)
  | devGetBufferMemoryRequirements (b : VkBuffer)
  | devCreateImage (info : ImageCreateInfo)
  | devGetImageMemoryRequirements (i : VkImage)
  | lockAcquire
  | lockRelease
  | allocAllocate (desc : AllocationCreateDesc)
  | allocFree (a : Allocation)
  | devBindBufferMemory (b : VkBuffer) (memory offset : Nat)
  | devBindImageMemory (i : VkImage) (memory offset : Nat)
  | devDestroyBuffer (b : VkBuffer)
  | devDestroyImage (i : VkImage)
deriving DecidableEq, Repr

/-- Oracle for the external ash device: whether each fallible call succeeds,
the memory requirements it reports, and the raw handles it hands out.  The
device is an external collaborator, specified only at its interface. -/
structure DeviceBehavior where
  createBufferOk : Bool
  createImageOk : Bool
  bindBufferOk : Bool
  bindImageOk : Bool
  bufferMemReq : MemoryRequirements
  imageMemReq : MemoryRequirements
  bufferHandle : VkBuffer
  imageHandle : VkImage
deriving DecidableEq, Repr

/-- State of the shared Arc-Mutex-Allocator: whether the mutex is poisoned
(lock acquisition fails), whether the external pool accepts the next allocate
or free call, a bump counter used for fresh offsets, and the bookkeeping list
of live allocations (the pool state the claims speak about). -/
structure AllocatorState where
  poisoned : Bool
  allocateOk : Bool
  freeOk : Bool
  nextOffset : Nat
  live : List Allocation
deriving DecidableEq, Repr

/-- Message produced by GpuAllocator::get_allocator when the mutex lock fails
(format string "Failed to acquire lock on allocator: {}"). -/
def lockFailMsg : String :=
  "Failed to acquire lock on allocator: poisoned lock: another task failed while holding this lock"

/-- Interface model of gpu_allocator Allocator::allocate: on success it returns
a fresh Allocation satisfying the request, host-mapped exactly when the
requested location is CPU-visible, and records it in the pool; on failure the
pool is unchanged. -/
def allocatorAllocate (st : AllocatorState) (desc : AllocationCreateDesc) :
    Except RendererError (Allocation × AllocatorState) :=
  if st.allocateOk then
    let a : Allocation :=
      { memory := 1
        offset := st.nextOffset
        size := desc.requirements.size
        mappedPtr :=
          if desc.location = MemoryLocation.CpuToGpu ∨
              desc.location = MemoryLocation.GpuToCpu then
            some (4096 + st.nextOffset)
          else
            none }
    Except.ok (a, { st with
      nextOffset := st.nextOffset + desc.requirements.size
      live := a :: st.live })
  else
    Except.error (RendererError.AllocationError "Out of memory")

/-- Interface model of gpu_allocator Allocator::free: on success the allocation
is removed from the pool; on failure the pool is unchanged. -/
def allocatorFree (st : AllocatorState) (a : Allocation) :
    Except RendererError AllocatorState :=
  if st.freeOk then
    Except.ok { st with live := st.live.erase a }
  else
    Except.error (RendererError.AllocationError "Internal free error")

namespace GpuAllocator

/-- Embedding of GpuAllocator::create_buffer (gpu.rs lines 29-56).  Builds the
vk::BufferCreateInfo with exclusive sharing, asks the device for the raw
buffer, queries its memory requirements, locks the allocator, allocates with
location CpuToGpu and linear layout, binds, and returns buffer and allocation.
Every fallible step propagates its error with the question-mark operator; the
MutexGuard obtained at get_allocator is dropped at function exit, which is
where the lockRelease event is emitted. -/
def create_buffer (dev : DeviceBehavior) (st : AllocatorState)
    (size : Nat) (usage : Nat) :
    Except RendererError (VkBuffer × Allocation) × AllocatorState × List Event :=
  let buffer_info : BufferCreateInfo :=
    { size := size, usage := usage, sharing_mode := SharingMode.EXCLUSIVE }
  if dev.createBufferOk then
    let buffer := dev.bufferHandle
    let requirements := dev.bufferMemReq
    if st.poisoned then
      (Except.error (RendererError.Allocator lockFailMsg), st,
        [Event.devCreateBuffer buffer_info,
         Event.devGetBufferMemoryRequirements buffer])
    else
      let desc : AllocationCreateDesc :=
        { name := ""
          requirements := requirements
          location := MemoryLocation.CpuToGpu
          linear := true }
      match allocatorAllocate st desc with
      | Except.error e =>
          (Except.error e, st,
            [Event.devCreateBuffer buffer_info,
             Event.devGetBufferMemoryRequirements buffer,
             Event.lockAcquire,
             Event.allocAllocate desc,
             Event.lockRelease])
      | Except.ok (allocation, st') =>
          if dev.bindBufferOk then
            (Except.ok (buffer, allocation), st',
              [Event.devCreateBuffer buffer_info,
               Event.devGetBufferMemoryRequirements buffer,
               Event.lockAcquire,
               Event.allocAllocate desc,
               Event.devBindBufferMemory buffer allocation.memory allocation.offset,
               Event.lockRelease])
          else
            (Except.error (RendererError.Vulkan "bind_buffer_memory failed"), st',
              [Event.devCreateBuffer buffer_info,
               Event.devGetBufferMemoryRequirements buffer,
               Event.lockAcquire,
               Event.allocAllocate desc,
               Event.devBindBufferMemory buffer allocation.memory allocation.offset,
               Event.lockRelease])
  else
    (Except.error (RendererError.Vulkan "create_buffer failed"), st,
      [Event.devCreateBuffer buffer_info])

/-- The vk::ImageCreateInfo built by create_image for a given width and height
(gpu.rs lines 64-81). -/
def imageInfoFor (width height : Nat) : ImageCreateInfo :=
  { image_type := ImageType.TYPE_2D
    extent := { width := width, height := height, depth := 1 }
    mip_levels := 1
    array_layers := 1
    format := Format.R8G8B8A8_UNORM
    tiling := ImageTiling.OPTIMAL
    initial_layout := ImageLayout.UNDEFINED
    usage := IMAGE_USAGE_TRANSFER_DST ||| IMAGE_USAGE_SAMPLED
    sharing_mode := SharingMode.EXCLUSIVE
    samples := SampleCount.TYPE_1
    flags := 0 }

/-- Embedding of GpuAllocator::create_image (gpu.rs lines 58-98).  Builds the
fixed 2D image descriptor, asks the device for the raw image, queries its
memory requirements, locks the allocator, allocates with location GpuOnly and
linear layout, binds, and returns image and allocation.  Error propagation and
guard lifetime are as in create_buffer. -/
def create_image (dev : DeviceBehavior) (st : AllocatorState)
    (width height : Nat) :
    Except RendererError (VkImage × Allocation) × AllocatorState × List Event :=
  let image_info := imageInfoFor width height
  if dev.createImageOk then
    let image := dev.imageHandle
    let requirements := dev.imageMemReq
    if st.poisoned then
      (Except.error (RendererError.Allocator lockFailMsg), st,
        [Event.devCreateImage image_info,
         Event.devGetImageMemoryRequirements image])
    else
      let desc : AllocationCreateDesc :=
        { name := ""
          requirements := requirements
          location := MemoryLocation.GpuOnly
          linear := true }
      match allocatorAllocate st desc with
      | Except.error e =>
          (Except.error e, st,
            [Event.devCreateImage image_info,
             Event.devGetImageMemoryRequirements image,
             Event.lockAcquire,
             Event.allocAllocate desc,
             Event.lockRelease])
      | Except.ok (allocation, st') =>
          if dev.bindImageOk then
            (Except.ok (image, allocation), st',
              [Event.devCreateImage image_info,
               Event.devGetImageMemoryRequirements image,
               Event.lockAcquire,
               Event.allocAllocate desc,
               Event.devBindImageMemory image allocation.memory allocation.offset,
               Event.lockRelease])
          else
            (Except.error (RendererError.Vulkan "bind_image_memory failed"), st',
              [Event.devCreateImage image_info,
               Event.devGetImageMemoryRequirements image,
               Event.lockAcquire,
               Event.allocAllocate desc,
               Event.devBindImageMemory image allocation.memory allocation.offset,
               Event.lockRelease])
  else
    (Except.error (RendererError.Vulkan "create_image failed"), st,
      [Event.devCreateImage image_info])

/-- Embedding of GpuAllocator::destroy_buffer (gpu.rs lines 100-112).  Locks
the allocator, frees the allocation with the question-mark operator, then
destroys the raw buffer (an infallible device call).  If get_allocator fails
the function returns before any call; if free fails the error returns before
device.destroy_buffer runs.  The guard is dropped at function exit. -/
def destroy_buffer (st : AllocatorState) (buffer : VkBuffer)
    (memory : Allocation) :
    Except RendererError Unit × AllocatorState × List Event :=
  if st.poisoned then
    (Except.error (RendererError.Allocator lockFailMsg), st, [])
  else
    match allocatorFree st memory with
    | Except.error e =>
        (Except.error e, st,
          [Event.lockAcquire, Event.allocFree memory, Event.lockRelease])
    | Except.ok st' =>
        (Except.ok (), st',
          [Event.lockAcquire, Event.allocFree memory,
           Event.devDestroyBuffer buffer, Event.lockRelease])

/-- Embedding of GpuAllocator::destroy_image (gpu.rs lines 114-126), the image
counterpart of destroy_buffer. -/
def destroy_image (st : AllocatorState) (image : VkImage)
    (memory : Allocation) :
    Except RendererError Unit × AllocatorState × List Event :=
  if st.poisoned then
    (Except.error (RendererError.Allocator lockFailMsg), st, [])
  else
    match allocatorFree st memory with
    | Except.error e =>
        (Except.error e, st,
          [Event.lockAcquire, Event.allocFree memory, Event.lockRelease])
    | Except.ok st' =>
        (Except.ok (), st',
          [Event.lockAcquire, Event.allocFree memory,
           Event.devDestroyImage image, Event.lockRelease])

end GpuAllocator

/-- Size and alignment of a Rust element type T.  Every Rust type satisfies
0 < alignOf and alignOf dvd sizeOf; theorems carry those facts as hypotheses
rather than baking them into the structure. -/
structure RustTy where
  sizeOf : Nat
  alignOf : Nat
deriving DecidableEq, Repr

/-- Padding added after an element of size adr to reach alignment align:
ash::util::Align computes (align - adr % align) % align. -/
def calc_padding (adr align : Nat) : Nat :=
  (align - adr % align) % align

/-- Byte writes of one contiguous region: byte k of the list goes to address
ptr + k. -/
def contiguousWrites (ptr : Nat) (bytes : List Nat) : List (Nat × Nat) :=
  match bytes with
  | [] => []
  | b :: rest => (ptr, b) :: contiguousWrites (ptr + 1) rest

/-- Byte writes performed by ash::util::Align::copy_from_slice: element i of
the slice (given as its sizeOf bytes) is written contiguously at address
ptr + i * elemSize, where elemSize is the element size rounded up to the
alignment passed to Align::new. -/
def alignWrites (ptr elemSize : Nat) (data : List (List Nat)) : List (Nat × Nat) :=
  match data with
  | [] => []
  | e :: rest => contiguousWrites ptr e ++ alignWrites (ptr + elemSize) elemSize rest

/-- Result of update_buffer: the Rust function returns RendererResult of unit,
so ok and err mirror that type; panicked records an unwinding panic, which is
an outcome the Rust type does not carry back to the caller as a value. -/
inductive UpdateOutcome where
  | ok
  | err (e : RendererError)
  | panicked (msg : String)
deriving DecidableEq, Repr

namespace GpuAllocator

/-- Embedding of GpuAllocator::update_buffer (gpu.rs lines 128-141).  The
element type T is abstracted by its size and alignment, and the slice by the
byte lists of its elements.  The function computes size = data.len * sizeOf,
unwraps memory.mapped_ptr() (panicking when it is None, before any memory
access), builds ash::util::Align::new(ptr, alignOf, size) whose element stride
is sizeOf plus padding to alignOf, copies the slice, and returns Ok.  No
branch inspects the size of the mapped region.  The second component is the
ordered list of (address, byte) stores performed. -/
def update_buffer (ty : RustTy) (memory : Allocation) (data : List (List Nat)) :
    UpdateOutcome × List (Nat × Nat) :=
  let _size := data.length * ty.sizeOf
  match memory.mappedPtr with
  | none => (UpdateOutcome.panicked "called Option::unwrap on a None value", [])
  | some data_ptr =>
      let elem_size := ty.sizeOf + calc_padding ty.sizeOf ty.alignOf
      (UpdateOutcome.ok, alignWrites data_ptr elem_size data)

end GpuAllocator

/-- Whether an event is a device-level bind or destroy call. -/
def Event.isDeviceBindOrDestroy : Event → Bool
  | Event.devBindBufferMemory _ _ _ => true
  | Event.devBindImageMemory _ _ _ => true
  | Event.devDestroyBuffer _ => true
  | Event.devDestroyImage _ => true
  | _ => false

/-- Decides whether a trace performs no device-level bind or destroy call
while the allocator lock is held; the accumulator tracks whether the lock is
currently held. -/
def noDeviceCallWhileLocked : List Event → Bool → Bool
  | [], _ => true
  | Event.lockAcquire :: rest, _ => noDeviceCallWhileLocked rest true
  | Event.lockRelease :: rest, _ => noDeviceCallWhileLocked rest false
  | e :: rest, held =>
      (!(e.isDeviceBindOrDestroy) || !held) && noDeviceCallWhileLocked rest held

/-- Decides whether every device-level bind or destroy call of a trace happens
while the allocator lock is held. -/
def bindsOnlyWhileLocked : List Event → Bool → Bool
  | [], _ => true
  | Event.lockAcquire :: rest, _ => bindsOnlyWhileLocked rest true
  | Event.lockRelease :: rest, _ => bindsOnlyWhileLocked rest false
  | e :: rest, held =>
      (!(e.isDeviceBindOrDestroy) || held) && bindsOnlyWhileLocked rest held

/-- Whether an event is a device create_buffer call. -/
def isCreateBufferEvent : Event → Bool
  | Event.devCreateBuffer _ => true
  | _ => false

/-- Whether an event is a device destroy_buffer call. -/
def isDestroyBufferEvent : Event → Bool
  | Event.devDestroyBuffer _ => true
  | _ => false

/-- Whether an event is a device create_image call. -/
def isCreateImageEvent : Event → Bool
  | Event.devCreateImage _ => true
  | _ => false

/-- Whether an event is a device destroy_image call. -/
def isDestroyImageEvent : Event → Bool
  | Event.devDestroyImage _ => true
  | _ => false

/-- Whether an event is an allocator free call. -/
def isFreeEvent : Event → Bool
  | Event.allocFree _ => true
  | _ => false

/-- The allocation requests a trace passes to Allocator::allocate, in order. -/
def requestedAllocs (tr : List Event) : List AllocationCreateDesc :=
  tr.filterMap fun e =>
    match e with
    | Event.allocAllocate desc => some desc
    | _ => none

/-- The memory locations of the allocation requests of a trace, in order. -/
def requestedLocations (tr : List Event) : List MemoryLocation :=
  tr.filterMap fun e =>
    match e with
    | Event.allocAllocate desc => some desc.location
    | _ => none

/-- Whether an Except result is a success. -/
def isOkResult {α : Type} : Except RendererError α → Bool
  | Except.ok _ => true
  | Except.error _ => false

/-- The error carried by an Except result, if any. -/
def errorOf {α : Type} : Except RendererError α → Option RendererError
  | Except.ok _ => none
  | Except.error e => some e

/-- Concrete memory requirements the model device reports for buffers. -/
def memReqB : MemoryRequirements :=
  { size := 64, alignment := 16, memoryTypeBits := 1 }

/-- Concrete memory requirements the model device reports for images. -/
def memReqI : MemoryRequirements :=
  { size := 4096, alignment := 256, memoryTypeBits := 2 }

/-- A device on which every call succeeds. -/
def devOk : DeviceBehavior :=
  { createBufferOk := true
    createImageOk := true
    bindBufferOk := true
    bindImageOk := true
    bufferMemReq := memReqB
    imageMemReq := memReqI
    bufferHandle := 10
    imageHandle := 20 }

/-- A device whose raw buffer creation fails. -/
def devNoCreateBuffer : DeviceBehavior :=
  { devOk with createBufferOk := false }

/-- A device whose bind calls fail after successful resource creation. -/
def devBindFails : DeviceBehavior :=
  { devOk with bindBufferOk := false, bindImageOk := false }

/-- A healthy allocator pool that accepts every request. -/
def stOk : AllocatorState :=
  { poisoned := false, allocateOk := true, freeOk := true, nextOffset := 0, live := [] }

/-- A healthy lock over an exhausted pool: allocate fails. -/
def stExhausted : AllocatorState :=
  { stOk with allocateOk := false }

/-- A poisoned lock: get_allocator fails. -/
def stPoisoned : AllocatorState :=
  { stOk with poisoned := true }

/-- A pool whose free call fails. -/
def stFreeFails : AllocatorState :=
  { stOk with freeOk := false }

/-- A host-mapped allocation, as returned for a CpuToGpu request. -/
def allocMapped : Allocation :=
  { memory := 1, offset := 0, size := 64, mappedPtr := some 4096 }

/-- An allocation with no host mapping, as returned for a GpuOnly request. -/
def allocUnmapped : Allocation :=
  { memory := 1, offset := 0, size := 16, mappedPtr := none }

/-- The element model of the Rust type u8: one byte, alignment one. -/
def tyU8 : RustTy := { sizeOf := 1, alignOf := 1 }

/-- The element model of a 4-byte type with 4-byte alignment, such as u32. -/
def tyU32 : RustTy := { sizeOf := 4, alignOf := 4 }

lemma contiguousWrites_append (xs : List Nat) :
    ∀ (ptr : Nat) (ys : List Nat),
      contiguousWrites ptr (xs ++ ys) =
        contiguousWrites ptr xs ++ contiguousWrites (ptr + xs.length) ys := by
  induction xs with
  | nil => intro ptr ys; simp [contiguousWrites]
  | cons b rest ih =>
      intro ptr ys
      simp only [List.cons_append, contiguousWrites, List.append_eq,
        ih (ptr + 1) ys, List.length_cons, List.cons_append]
      have h : ptr + 1 + rest.length = ptr + (rest.length + 1) := by omega
      rw [h]

lemma length_contiguousWrites (xs : List Nat) :
    ∀ ptr, (contiguousWrites ptr xs).length = xs.length := by
  induction xs with
  | nil => intro ptr; simp [contiguousWrites]
  | cons b rest ih => intro ptr; simp [contiguousWrites, ih (ptr + 1)]

lemma alignWrites_eq_contiguous (s : Nat) (data : List (List Nat))
    (h : ∀ e ∈ data, e.length = s) :
    ∀ ptr, alignWrites ptr s data = contiguousWrites ptr data.flatten := by
  induction data with
  | nil => intro ptr; simp [alignWrites, List.flatten, contiguousWrites]
  | cons e rest ih =>
      intro ptr
      have he : e.length = s := h e (by simp)
      have hrest : ∀ x ∈ rest, x.length = s := fun x hx => h x (by simp [hx])
      simp only [alignWrites, List.flatten_cons, contiguousWrites_append, he,
        ih hrest (ptr + s)]

lemma length_alignWrites (s es : Nat) (data : List (List Nat))
    (h : ∀ e ∈ data, e.length = s) :
    ∀ ptr, (alignWrites ptr es data).length = data.length * s := by
  induction data with
  | nil => intro ptr; simp [alignWrites]
  | cons e rest ih =>
      intro ptr
      have he : e.length = s := h e (by simp)
      have hrest : ∀ x ∈ rest, x.length = s := fun x hx => h x (by simp [hx])
      simp only [alignWrites, List.length_append, length_contiguousWrites, he,
        ih hrest (ptr + es), List.length_cons]
      ring

lemma calc_padding_eq_zero (s a : Nat) (ha : 0 < a) (hd : a ∣ s) :
    calc_padding s a = 0 := by
  rcases hd with ⟨k, rfl⟩
  unfold calc_padding
  simp [Nat.mul_mod_right]

/-- C9: update_buffer on a host-mapped Allocation whose region is large enough
for the data and whose element type has the Rust size and alignment invariants
copies exactly data.length * sizeOf bytes, byte for byte and contiguously,
into the mapped region starting at the mapped pointer, and returns success. -/
theorem C9_update_buffer_copies_bytes_exactly (ty : RustTy) (memory : Allocation)
    (data : List (List Nat)) (ptr : Nat)
    (halign : 0 < ty.alignOf) (hdvd : ty.alignOf ∣ ty.sizeOf)
    (helems : ∀ e ∈ data, e.length = ty.sizeOf)
    (hmapped : memory.mappedPtr = some ptr)
    (hfits : data.length * ty.sizeOf ≤ memory.size) :
    (GpuAllocator.update_buffer ty memory data).1 = UpdateOutcome.ok ∧
    (GpuAllocator.update_buffer ty memory data).2 =
      contiguousWrites ptr data.flatten ∧
    (GpuAllocator.update_buffer ty memory data).2.length =
      data.length * ty.sizeOf := by
  have hpad : calc_padding ty.sizeOf ty.alignOf = 0 :=
    calc_padding_eq_zero ty.sizeOf ty.alignOf halign hdvd
  refine ⟨?_, ?_, ?_⟩
  · simp [GpuAllocator.update_buffer, hmapped]
  · simp [GpuAllocator.update_buffer, hmapped, hpad,
      alignWrites_eq_contiguous ty.sizeOf data helems ptr]
  · simp [GpuAllocator.update_buffer, hmapped, hpad,
      length_alignWrites ty.sizeOf ty.sizeOf data helems ptr]

/-- Witness for C9 at a concrete input: two 4-byte elements written through a
mapped pointer at 4096 land contiguously as the eight data bytes. -/
theorem C9_witness :
    (GpuAllocator.update_buffer tyU32 allocMapped [[1, 2, 3, 4], [5, 6, 7, 8]]).1 =
      UpdateOutcome.ok ∧
    (GpuAllocator.update_buffer tyU32 allocMapped [[1, 2, 3, 4], [5, 6, 7, 8]]).2 =
      contiguousWrites 4096 [1, 2, 3, 4, 5, 6, 7, 8] ∧
    (GpuAllocator.update_buffer tyU32 allocMapped [[1, 2, 3, 4], [5, 6, 7, 8]]).2.length =
      2 * 4 :=
  C9_update_buffer_copies_bytes_exactly tyU32 allocMapped
    [[1, 2, 3, 4], [5, 6, 7, 8]] 4096
    (by decide) (by decide) (by decide) (by decide) (by decide)

/-- C10: update_buffer performs no size validation: for every host-mapped
Allocation and every data slice, with no hypothesis relating the data size to
the size of the mapped region, it performs the full copy of
data.length * sizeOf bytes and returns success. -/
theorem C10_update_buffer_never_checks_size (ty : RustTy) (memory : Allocation)
    (data : List (List Nat)) (ptr : Nat)
    (helems : ∀ e ∈ data, e.length = ty.sizeOf)
    (hmapped : memory.mappedPtr = some ptr) :
    (GpuAllocator.update_buffer ty memory data).1 = UpdateOutcome.ok ∧
    (GpuAllocator.update_buffer ty memory data).2.length =
      data.length * ty.sizeOf := by
  refine ⟨?_, ?_⟩
  · simp [GpuAllocator.update_buffer, hmapped]
  · simp [GpuAllocator.update_buffer, hmapped,
      length_alignWrites ty.sizeOf
        (ty.sizeOf + calc_padding ty.sizeOf ty.alignOf) data helems ptr]

/-- Witness for C10 at a concrete input in which the data overruns the mapped
region: eight one-byte elements against an allocation of size one still copy
all eight bytes and return success. -/
theorem C10_witness :
    ({ allocMapped with size := 1 } : Allocation).size <
      8 * tyU8.sizeOf ∧
    (GpuAllocator.update_buffer tyU8 { allocMapped with size := 1 }
        [[1], [2], [3], [4], [5], [6], [7], [8]]).1 = UpdateOutcome.ok ∧
    (GpuAllocator.update_buffer tyU8 { allocMapped with size := 1 }
        [[1], [2], [3], [4], [5], [6], [7], [8]]).2.length = 8 * tyU8.sizeOf :=
  ⟨by decide,
   (C10_update_buffer_never_checks_size tyU8 { allocMapped with size := 1 }
      [[1], [2], [3], [4], [5], [6], [7], [8]] 4096 (by decide) (by decide))⟩

/-- C2 counterexample: at the concrete unmapped allocation, update_buffer does
not return the UnmappedMemory error the claim requires; it panics on the
unwrap of the absent pointer (and performs no memory write). -/
theorem C2_counterexample :
    (GpuAllocator.update_buffer tyU8 allocUnmapped [[7]]).1 =
      UpdateOutcome.panicked "called Option::unwrap on a None value" ∧
    (GpuAllocator.update_buffer tyU8 allocUnmapped [[7]]).1 ≠
      UpdateOutcome.err RendererError.UnmappedMemory ∧
    (GpuAllocator.update_buffer tyU8 allocUnmapped [[7]]).2 = [] := by
  decide

/-- C2 as amended: update_buffer on an Allocation with no host-mapped pointer
panics (Option::unwrap on None) before any memory access, rather than
returning an error value; it performs no write and returns no RendererError of
any kind. -/
theorem C2_update_buffer_unmapped_panics (ty : RustTy) (memory : Allocation)
    (data : List (List Nat)) (hunmapped : memory.mappedPtr = none) :
    (GpuAllocator.update_buffer ty memory data).1 =
      UpdateOutcome.panicked "called Option::unwrap on a None value" ∧
    (GpuAllocator.update_buffer ty memory data).2 = [] ∧
    ∀ e, (GpuAllocator.update_buffer ty memory data).1 ≠ UpdateOutcome.err e := by
  refine ⟨?_, ?_, ?_⟩
  · simp [GpuAllocator.update_buffer, hunmapped]
  · simp [GpuAllocator.update_buffer, hunmapped]
  · intro e
    simp [GpuAllocator.update_buffer, hunmapped]

/-- Witness for the amended C2 at a concrete unmapped allocation. -/
theorem C2_witness :
    (GpuAllocator.update_buffer tyU32 allocUnmapped [[9, 9, 9, 9]]).1 =
      UpdateOutcome.panicked "called Option::unwrap on a None value" ∧
    (GpuAllocator.update_buffer tyU32 allocUnmapped [[9, 9, 9, 9]]).2 = [] ∧
    ∀ e, (GpuAllocator.update_buffer tyU32 allocUnmapped [[9, 9, 9, 9]]).1 ≠
      UpdateOutcome.err e :=
  C2_update_buffer_unmapped_panics tyU32 allocUnmapped [[9, 9, 9, 9]] (by decide)

/-- C1: evaluation of the code at the failing inputs.  On each partial-failure
path that begins with a successful raw resource creation — allocation failure,
lock-acquisition failure, and bind failure for buffers, and allocation failure
for images — the operation returns an error, the trace contains the device
create call, and it contains no device destroy call: the already-created raw
resource is leaked, contradicting the claim. -/
theorem C1_raw_resource_leaked_on_partial_failure :
    (isOkResult (GpuAllocator.create_buffer devOk stExhausted 64 1).1 = false ∧
     (GpuAllocator.create_buffer devOk stExhausted 64 1).2.2.any
       isCreateBufferEvent = true ∧
     (GpuAllocator.create_buffer devOk stExhausted 64 1).2.2.any
       isDestroyBufferEvent = false) ∧
    (isOkResult (GpuAllocator.create_buffer devOk stPoisoned 64 1).1 = false ∧
     (GpuAllocator.create_buffer devOk stPoisoned 64 1).2.2.any
       isCreateBufferEvent = true ∧
     (GpuAllocator.create_buffer devOk stPoisoned 64 1).2.2.any
       isDestroyBufferEvent = false) ∧
    (isOkResult (GpuAllocator.create_buffer devBindFails stOk 64 1).1 = false ∧
     (GpuAllocator.create_buffer devBindFails stOk 64 1).2.2.any
       isCreateBufferEvent = true ∧
     (GpuAllocator.create_buffer devBindFails stOk 64 1).2.2.any
       isDestroyBufferEvent = false) ∧
    (isOkResult (GpuAllocator.create_image devOk stExhausted 32 32).1 = false ∧
     (GpuAllocator.create_image devOk stExhausted 32 32).2.2.any
       isCreateImageEvent = true ∧
     (GpuAllocator.create_image devOk stExhausted 32 32).2.2.any
       isDestroyImageEvent = false) := by
  decide

/-- C4: evaluation of the code at the failing input.  When Allocator::free
fails, destroy_buffer and destroy_image propagate the error after attempting
the free, but the device-level destroy call never executes: the second step is
skipped, contradicting the claim that both steps always execute. -/
theorem C4_destroy_step_skipped_when_free_fails :
    (errorOf (GpuAllocator.destroy_buffer stFreeFails 10 allocMapped).1 =
       some (RendererError.AllocationError "Internal free error")) ∧
    ((GpuAllocator.destroy_buffer stFreeFails 10 allocMapped).2.2.any
       isFreeEvent = true) ∧
    ((GpuAllocator.destroy_buffer stFreeFails 10 allocMapped).2.2.any
       isDestroyBufferEvent = false) ∧
    (errorOf (GpuAllocator.destroy_image stFreeFails 20 allocUnmapped).1 =
       some (RendererError.AllocationError "Internal free error")) ∧
    ((GpuAllocator.destroy_image stFreeFails 20 allocUnmapped).2.2.any
       isFreeEvent = true) ∧
    ((GpuAllocator.destroy_image stFreeFails 20 allocUnmapped).2.2.any
       isDestroyImageEvent = false) := by
  decide

/-- C6: when the device's raw buffer creation fails, create_buffer returns the
device error, passes no allocation request to the allocator, and leaves the
pool state unchanged. -/
theorem C6_create_failure_requests_no_allocation (dev : DeviceBehavior)
    (st : AllocatorState) (size usage : Nat) (h : dev.createBufferOk = false) :
    (GpuAllocator.create_buffer dev st size usage).1 =
      Except.error (RendererError.Vulkan "create_buffer failed") ∧
    requestedAllocs (GpuAllocator.create_buffer dev st size usage).2.2 = [] ∧
    (GpuAllocator.create_buffer dev st size usage).2.1 = st := by
  simp [GpuAllocator.create_buffer, h, requestedAllocs]

/-- Witness for C6 at a concrete device whose buffer creation fails. -/
theorem C6_witness :
    (GpuAllocator.create_buffer devNoCreateBuffer stOk 64 1).1 =
      Except.error (RendererError.Vulkan "create_buffer failed") ∧
    requestedAllocs (GpuAllocator.create_buffer devNoCreateBuffer stOk 64 1).2.2 =
      [] ∧
    (GpuAllocator.create_buffer devNoCreateBuffer stOk 64 1).2.1 = stOk :=
  C6_create_failure_requests_no_allocation devNoCreateBuffer stOk 64 1 (by decide)

/-- C7: when the allocator mutex cannot be locked, every one of the four
lifecycle operations surfaces the RendererError::Allocator value built in
get_allocator to its caller (for the create operations, once the raw creation
has succeeded and the lock is actually attempted). -/
theorem C7_lock_failure_is_allocator_error (dev : DeviceBehavior)
    (st : AllocatorState) (size usage width height : Nat)
    (buf : VkBuffer) (img : VkImage) (mem : Allocation)
    (hp : st.poisoned = true)
    (hcb : dev.createBufferOk = true) (hci : dev.createImageOk = true) :
    (GpuAllocator.create_buffer dev st size usage).1 =
      Except.error (RendererError.Allocator lockFailMsg) ∧
    (GpuAllocator.create_image dev st width height).1 =
      Except.error (RendererError.Allocator lockFailMsg) ∧
    (GpuAllocator.destroy_buffer st buf mem).1 =
      Except.error (RendererError.Allocator lockFailMsg) ∧
    (GpuAllocator.destroy_image st img mem).1 =
      Except.error (RendererError.Allocator lockFailMsg) := by
  refine ⟨?_, ?_, ?_, ?_⟩
  · simp [GpuAllocator.create_buffer, hp, hcb]
  · simp [GpuAllocator.create_image, hp, hci]
  · simp [GpuAllocator.destroy_buffer, hp]
  · simp [GpuAllocator.destroy_image, hp]

/-- Witness for C7 at a concrete poisoned allocator state. -/
theorem C7_witness :
    (GpuAllocator.create_buffer devOk stPoisoned 64 1).1 =
      Except.error (RendererError.Allocator lockFailMsg) ∧
    (GpuAllocator.create_image devOk stPoisoned 32 32).1 =
      Except.error (RendererError.Allocator lockFailMsg) ∧
    (GpuAllocator.destroy_buffer stPoisoned 10 allocMapped).1 =
      Except.error (RendererError.Allocator lockFailMsg) ∧
    (GpuAllocator.destroy_image stPoisoned 20 allocUnmapped).1 =
      Except.error (RendererError.Allocator lockFailMsg) :=
  C7_lock_failure_is_allocator_error devOk stPoisoned 64 1 32 32 10 20
    allocMapped (by decide) (by decide) (by decide)

/-- C8: every create_image call, whatever the device and pool behaviour, first
passes the device an image descriptor for a 2D image of extent
width x height x 1, one mip level, one array layer, format R8G8B8A8_UNORM,
optimal tiling, undefined initial layout, usage TRANSFER_DST together with
SAMPLED, exclusive sharing, a single sample, and empty flags. -/
theorem C8_image_descriptor_fields (dev : DeviceBehavior) (st : AllocatorState)
    (width height : Nat) :
    (GpuAllocator.create_image dev st width height).2.2.head? =
      some (Event.devCreateImage
        { image_type := ImageType.TYPE_2D
          extent := { width := width, height := height, depth := 1 }
          mip_levels := 1
          array_layers := 1
          format := Format.R8G8B8A8_UNORM
          tiling := ImageTiling.OPTIMAL
          initial_layout := ImageLayout.UNDEFINED
          usage := IMAGE_USAGE_TRANSFER_DST ||| IMAGE_USAGE_SAMPLED
          sharing_mode := SharingMode.EXCLUSIVE
          samples := SampleCount.TYPE_1
          flags := 0 }) := by
  rcases st with ⟨p, aok, fok, no, live⟩
  cases hci : dev.createImageOk <;> cases p <;> cases aok <;>
    cases hbi : dev.bindImageOk <;>
      simp [GpuAllocator.create_image, allocatorAllocate,
        GpuAllocator.imageInfoFor, hci, hbi]

/-- C5: every successful create_buffer call passed the allocator exactly one
allocation request, with the host-visible CpuToGpu location, and every
successful create_image call passed it exactly one request, with the
device-local GpuOnly location. -/
theorem C5_location_policy (dev : DeviceBehavior) (st : AllocatorState)
    (size usage width height : Nat) :
    (isOkResult (GpuAllocator.create_buffer dev st size usage).1 = true →
      requestedLocations (GpuAllocator.create_buffer dev st size usage).2.2 =
        [MemoryLocation.CpuToGpu]) ∧
    (isOkResult (GpuAllocator.create_image dev st width height).1 = true →
      requestedLocations (GpuAllocator.create_image dev st width height).2.2 =
        [MemoryLocation.GpuOnly]) := by
  rcases st with ⟨p, aok, fok, no, live⟩
  refine ⟨?_, ?_⟩
  · intro h
    cases hcb : dev.createBufferOk <;> cases p <;> cases aok <;>
      cases hbb : dev.bindBufferOk <;>
        simp [GpuAllocator.create_buffer, allocatorAllocate, isOkResult,
          requestedLocations, hcb, hbb] at h ⊢
  · intro h
    cases hci : dev.createImageOk <;> cases p <;> cases aok <;>
      cases hbi : dev.bindImageOk <;>
        simp [GpuAllocator.create_image, allocatorAllocate, isOkResult,
          requestedLocations, hci, hbi] at h ⊢

/-- Witness for C5 at a concrete all-successful device and pool. -/
theorem C5_witness :
    requestedLocations (GpuAllocator.create_buffer devOk stOk 64 1).2.2 =
      [MemoryLocation.CpuToGpu] ∧
    requestedLocations (GpuAllocator.create_image devOk stOk 32 32).2.2 =
      [MemoryLocation.GpuOnly] :=
  ⟨(C5_location_policy devOk stOk 64 1 32 32).1 (by decide),
   (C5_location_policy devOk stOk 64 1 32 32).2 (by decide)⟩

/-- C3 counterexample: in a concrete successful create_buffer call and a
concrete successful destroy_buffer call, a device-level bind, respectively
destroy, call executes while the allocator lock is held, refuting the claim
that the lock is released before device-level bind and destroy calls. -/
theorem C3_counterexample :
    noDeviceCallWhileLocked (GpuAllocator.create_buffer devOk stOk 64 1).2.2
      false = false ∧
    noDeviceCallWhileLocked
      (GpuAllocator.destroy_buffer stOk 10 allocMapped).2.2 false = false := by
  decide

/-- C3 as amended: in all four lifecycle operations the MutexGuard from
get_allocator lives to the end of the function body, so the exclusive lock is
held not only for the allocate or free bookkeeping but also across the
device-level bind or destroy call of the same operation; whenever the lock is
acquired, its release is the last action of the operation. -/
theorem C3_lock_held_through_device_calls (dev : DeviceBehavior)
    (st : AllocatorState) (size usage width height : Nat)
    (buf : VkBuffer) (img : VkImage) (mem : Allocation) :
    (bindsOnlyWhileLocked (GpuAllocator.create_buffer dev st size usage).2.2
        false = true ∧
      (Event.lockAcquire ∈ (GpuAllocator.create_buffer dev st size usage).2.2 →
        (GpuAllocator.create_buffer dev st size usage).2.2.getLast? =
          some Event.lockRelease)) ∧
    (bindsOnlyWhileLocked (GpuAllocator.create_image dev st width height).2.2
        false = true ∧
      (Event.lockAcquire ∈ (GpuAllocator.create_image dev st width height).2.2 →
        (GpuAllocator.create_image dev st width height).2.2.getLast? =
          some Event.lockRelease)) ∧
    (bindsOnlyWhileLocked (GpuAllocator.destroy_buffer st buf mem).2.2
        false = true ∧
      (Event.lockAcquire ∈ (GpuAllocator.destroy_buffer st buf mem).2.2 →
        (GpuAllocator.destroy_buffer st buf mem).2.2.getLast? =
          some Event.lockRelease)) ∧
    (bindsOnlyWhileLocked (GpuAllocator.destroy_image st img mem).2.2
        false = true ∧
      (Event.lockAcquire ∈ (GpuAllocator.destroy_image st img mem).2.2 →
        (GpuAllocator.destroy_image st img mem).2.2.getLast? =
          some Event.lockRelease)) := by
  rcases st with ⟨p, aok, fok, no, live⟩
  refine ⟨⟨?_, ?_⟩, ⟨?_, ?_⟩, ⟨?_, ?_⟩, ⟨?_, ?_⟩⟩ <;>
    cases hcb : dev.createBufferOk <;> cases hci : dev.createImageOk <;>
      cases p <;> cases aok <;> cases fok <;>
        cases hbb : dev.bindBufferOk <;> cases hbi : dev.bindImageOk <;>
          simp [GpuAllocator.create_buffer, GpuAllocator.create_image,
            GpuAllocator.destroy_buffer, GpuAllocator.destroy_image,
            allocatorAllocate, allocatorFree, bindsOnlyWhileLocked,
            Event.isDeviceBindOrDestroy, hcb, hci, hbb, hbi]

/-- Witness for the amended C3 at a concrete successful create_buffer call. -/
theorem C3_witness :
    bindsOnlyWhileLocked (GpuAllocator.create_buffer devOk stOk 64 1).2.2
      false = true ∧
    (GpuAllocator.create_buffer devOk stOk 64 1).2.2.getLast? =
      some Event.lockRelease :=
  ⟨((C3_lock_held_through_device_calls devOk stOk 64 1 32 32 10 20
      allocMapped).1).1,
   ((C3_lock_held_through_device_calls devOk stOk 64 1 32 32 10 20
      allocMapped).1).2 (by decide)⟩
